import Mathlib

/-!
Verification development for the `nvidia-lstm-forecast` repository.

This file shallowly embeds the authentication/token subsystem
(`src/api/utils/jwt_handler.py`, `src/api/services/auth_service.py`,
`src/api/routes/auth.py`) and the generic database access layer
(`src/utils/database_manager.py`), and proves properties of the
embedded definitions.

Modelling conventions:
* Python dicts of string claims become association lists
  (`Claims`), with `dget`/`dinsert` mirroring `dict.get` and
  `dict.update` (an update replaces any previous binding).
* A signed JWT is a `Token` record carrying its payload, its expiry
  instant (seconds), and the key/algorithm it was signed with;
  `jwt.decode` succeeds exactly when key and algorithm match the
  process configuration and the token is not expired.
* bcrypt hashes are `AuthHash` records pairing the hashed plaintext
  with a salt; `pwd_context.verify` succeeds exactly when the
  plaintext matches, and distinct salts model the non-deterministic
  hashing of the same plaintext.
* The SQLite `users` table behind `auth_service.manager` is a
  `UsersDB`: a list of rows plus a `failing` flag; when `failing` is
  set every store call raises the wrapped `DatabaseError`, modelling
  a storage-layer failure.
* Python exceptions become `Except` results; `HTTPException` keeps
  its status code and detail string.
-/

set_option autoImplicit false

/-- Wrapped storage error raised by `DatabaseManager` (`database_manager.py`, class `DatabaseError`). -/
structure DatabaseError where
  msg : String
deriving DecidableEq, Repr

/-- `fastapi.HTTPException` as raised by the auth code: status code plus detail message. -/
structure HTTPException where
  status_code : Nat
  detail : String
deriving DecidableEq, Repr

/-! ## Claims dictionaries (Python `Dict[str, Any]` restricted to the string claims used) -/

/-- A claims dictionary: association list from claim name to string value.
The keys used by the code are `sub` and `type`; `exp` is kept as a separate
field of `Token` since its value is an instant, not a string. -/
abbrev Claims := List (String × String)

/-- `d.get(k)`: first binding of `k`, if any. -/
def dget (d : Claims) (k : String) : Option String :=
  (d.find? (fun p => p.1 == k)).map (fun p => p.2)

/-- `d.update({k: v})`: bind `k` to `v`, replacing any previous binding. -/
def dinsert (d : Claims) (k v : String) : Claims :=
  (k, v) :: d.filter (fun p => p.1 != k)

/-! ## Token service (`src/api/utils/jwt_handler.py`) -/

/-- Process-wide signing secret (`SECRET_KEY = getenv("SECRET_KEY")`), read once. -/
def SECRET_KEY : String := "SECRET_KEY"

/-- Process-wide signing algorithm (`ALGORITHM = getenv("ALGORITHM")`), read once. -/
def ALGORITHM : String := "HS256"

/-- A signed JWT: payload claims, absolute expiry instant (seconds), and the
key and algorithm it was signed with. `jwt.encode` of a payload is modelled
as constructing this record; the opaque token string is identified with it. -/
structure Token where
  payload : Claims
  exp : Nat
  key : String
  alg : String
deriving DecidableEq, Repr

/-- `create_access_token` (jwt_handler.py lines 17-33): copy `data`, add
`exp := now + (expires_delta or 15 minutes)`, sign with the process key.
Durations are in seconds; the default `timedelta(minutes=15)` is `900`. -/
def create_access_token (data : Claims) (expires_delta : Option Nat) (now : Nat) : Token :=
  { payload := data
    exp := now + expires_delta.getD 900
    key := SECRET_KEY
    alg := ALGORITHM }

/-- `create_refresh_token` (jwt_handler.py lines 74-91): copy `data`,
overwrite the `type` claim with `"refresh"`, add
`exp := now + (expires_delta or 7 days)` (`604800` seconds), sign. -/
def create_refresh_token (data : Claims) (expires_delta : Option Nat) (now : Nat) : Token :=
  { payload := dinsert data "type" "refresh"
    exp := now + expires_delta.getD 604800
    key := SECRET_KEY
    alg := ALGORITHM }

/-- `decode_token` (jwt_handler.py lines 36-50): `jwt.decode` returns the
payload when the signature verifies against the process key/algorithm and
the `exp` claim has not elapsed; on any `JWTError` the function returns
`None`. -/
def decode_token (t : Token) (now : Nat) : Option Claims :=
  if t.key == SECRET_KEY && t.alg == ALGORITHM && decide (now < t.exp) then
    some t.payload
  else
    none

/-- `get_current_user` (jwt_handler.py lines 53-71): decode the bearer
token; fail 401 unless the payload decoded, carries `type == "access"`,
and has a `sub` claim; otherwise return the username from `sub`. -/
def get_current_user (t : Token) (now : Nat) : Except HTTPException String :=
  match decode_token t now with
  | none => .error { status_code := 401, detail := "Invalid authentication credentials" }
  | some payload =>
    if dget payload "type" != some "access" || (dget payload "sub").isNone then
      .error { status_code := 401, detail := "Invalid authentication credentials" }
    else
      .ok ((dget payload "sub").getD "")

/-- `verify_refresh_token` (jwt_handler.py lines 94-122): decode; on
`JWTError` fail 401 "Invalid or expired refresh token"; then fail 401
"Invalid token type" unless `type == "refresh"`, fail 401
"Invalid token payload" unless `sub` is present; else return the payload. -/
def verify_refresh_token (t : Token) (now : Nat) : Except HTTPException Claims :=
  match decode_token t now with
  | none => .error { status_code := 401, detail := "Invalid or expired refresh token" }
  | some payload =>
    if dget payload "type" != some "refresh" then
      .error { status_code := 401, detail := "Invalid token type" }
    else if (dget payload "sub").isNone then
      .error { status_code := 401, detail := "Invalid token payload" }
    else
      .ok payload

/-! ## Credential store (`src/api/services/auth_service.py`) -/

/-- A bcrypt hash: `pwd_context.hash(password)` with a fresh salt. Distinct
salts make repeated hashing of the same plaintext produce distinct strings;
`pwd_context.verify` inspects only the plaintext component. -/
structure AuthHash where
  pw : String
  salt : Nat
deriving DecidableEq, Repr

/-- `pwd_context.hash(password)` with the given fresh salt. -/
def pwd_hash (password : String) (salt : Nat) : AuthHash :=
  { pw := password, salt := salt }

/-- `pwd_context.verify(plain, hashed)`: true iff the hash was produced from
this plaintext (any salt). `verify_password` (auth_service.py lines 26-41)
wraps this in a catch-all returning `False`, which coincides with it here. -/
def pwd_verify (plain : String) (h : AuthHash) : Bool :=
  h.pw == plain

/-- A row of the `users` table: surrogate id, username, hashed password. -/
structure UserRow where
  id : Nat
  username : String
  hashed_password : AuthHash
deriving DecidableEq, Repr

/-- The SQLite store behind `auth_service.manager`: the `users` table rows in
insertion order, plus a flag modelling a storage-layer failure (when set,
every call into `DatabaseManager` raises the wrapped `DatabaseError`). -/
structure UsersDB where
  users : List UserRow
  failing : Bool
deriving DecidableEq, Repr

/-- `manager.select("SELECT username, hashed_password FROM users WHERE
username = ? LIMIT 1", (username,))` (auth_service.py lines 54-57): raises
`DatabaseError` when the store fails, otherwise returns the first row whose
`username` column matches. -/
def users_select (db : UsersDB) (username : String) : Except DatabaseError (List UserRow) :=
  if db.failing then
    .error { msg := "Operational error" }
  else
    .ok ((db.users.filter (fun r => r.username == username)).take 1)

/-- `manager.insert("INSERT INTO users (username, hashed_password) VALUES
(?, ?)", (username, hashed))` (auth_service.py lines 102-105): raises
`DatabaseError` when the store fails, otherwise appends a fresh row and
returns its rowid. -/
def users_insert (db : UsersDB) (username : String) (h : AuthHash) :
    Except DatabaseError (Nat × UsersDB) :=
  if db.failing then
    .error { msg := "Operational error" }
  else
    let rid := db.users.length + 1
    .ok (rid, { users := db.users ++ [{ id := rid, username := username, hashed_password := h }]
                failing := db.failing })

/-- `get_user` (auth_service.py lines 44-67): select the row for `username`;
the enclosing `try` catches every exception (including `DatabaseError`) and
returns `None`, and an empty result also returns `None`; otherwise the
username and hashed password of the first row. -/
def get_user (db : UsersDB) (username : String) : Option (String × AuthHash) :=
  match users_select db username with
  | .error _ => none
  | .ok [] => none
  | .ok (r :: _) => some (r.username, r.hashed_password)

/-- The `while get_user(f"{base_username}{suffix}") is not None: suffix += 1`
loop of `create_user` (auth_service.py lines 96-97), with explicit fuel:
returns the first suffix `>= start` whose name is unused, probing in
increasing order. The caller passes fuel `db.users.length + 1`, which always
suffices (only finitely many names are taken). -/
def freeSuffixAux (db : UsersDB) (base : String) : Nat → Nat → Option Nat
  | _, 0 => none
  | start, fuel + 1 =>
    if (get_user db (base ++ toString start)).isNone then
      some start
    else
      freeSuffixAux db base (start + 1) fuel

/-- `create_user` (auth_service.py lines 70-109). Looks up `username`; if it
exists with the same password returns `None` (no insert); if it exists with a
different password probes `username1`, `username2`, ... for the first unused
name and inserts under it; otherwise inserts under `username`. The enclosing
`try` catches `DatabaseError` from the insert and returns `None`. `salt` is
the fresh salt drawn by `pwd_context.hash`. Returns the Python value
(`None` or `{"id": ..., "username": ...}`) together with the store state. -/
def create_user (db : UsersDB) (username password : String) (salt : Nat) :
    Option (Nat × String) × UsersDB :=
  let hashed := pwd_hash password salt
  match get_user db username with
  | some existing =>
    if pwd_verify password existing.2 then
      (none, db)
    else
      match freeSuffixAux db username 1 (db.users.length + 1) with
      | none => (none, db)
      | some k =>
        match users_insert db (username ++ toString k) hashed with
        | .error _ => (none, db)
        | .ok (rid, db2) => (some (rid, username ++ toString k), db2)
  | none =>
    match users_insert db username hashed with
    | .error _ => (none, db)
    | .ok (rid, db2) => (some (rid, username), db2)

/-- `authenticate_user` (auth_service.py lines 113-151): look up the user
(`get_user` returns `None` both for an unknown username and for a swallowed
storage failure) and verify the password; either failure raises 401
"Invalid username or password". The `except Exception` branch mapping to a
500 "Internal server error during authentication" is unreachable because
`get_user` and `verify_password` catch internally and never raise. -/
def authenticate_user (db : UsersDB) (username password : String) :
    Except HTTPException String :=
  match get_user db username with
  | none => .error { status_code := 401, detail := "Invalid username or password" }
  | some user =>
    if ¬ pwd_verify password user.2 then
      .error { status_code := 401, detail := "Invalid username or password" }
    else
      .ok username

/-! ## Auth routes (`src/api/routes/auth.py`) -/

/-- `TokenResponse` (auth_schema.py): token pair plus fixed bearer type. -/
structure TokenResponse where
  access_token : Token
  refresh_token : Token
  token_type : String := "bearer"
deriving DecidableEq, Repr

/-- `register` (auth.py lines 26-43): `create_user`; absent result becomes
400 "User already exists"; otherwise issue the token pair. Both tokens are
issued through `create_access_token`, the refresh one with an explicit
`type: "refresh"` claim and `timedelta(days=7)`. `accessMin` is
`ACCESS_TOKEN_EXPIRE_MINUTES`. -/
def register_route (db : UsersDB) (username password : String) (salt now accessMin : Nat) :
    Except HTTPException (TokenResponse × UsersDB) :=
  match create_user db username password salt with
  | (none, _) => .error { status_code := 400, detail := "User already exists" }
  | (some user, db2) =>
    .ok ({ access_token :=
             create_access_token [("sub", user.2), ("type", "access")] (some (accessMin * 60)) now
           refresh_token :=
             create_access_token [("sub", user.2), ("type", "refresh")] (some 604800) now },
         db2)

/-- `login` (auth.py lines 46-64): `authenticate_user`; on success issue the
token pair exactly as `register` does. -/
def login_route (db : UsersDB) (username password : String) (now accessMin : Nat) :
    Except HTTPException TokenResponse :=
  match authenticate_user db username password with
  | .error e => .error e
  | .ok uname =>
    .ok { access_token :=
            create_access_token [("sub", uname), ("type", "access")] (some (accessMin * 60)) now
          refresh_token :=
            create_access_token [("sub", uname), ("type", "refresh")] (some 604800) now }

/-- `refresh_token` route (auth.py lines 72-82): verify the presented
refresh token, then answer with a freshly issued access token for the same
`sub` and the presented refresh token itself. -/
def refresh_route (tok : Token) (now accessMin : Nat) : Except HTTPException TokenResponse :=
  match verify_refresh_token tok now with
  | .error e => .error e
  | .ok payload =>
    .ok { access_token :=
            create_access_token
              [("sub", (dget payload "sub").getD ""), ("type", "access")]
              (some (accessMin * 60)) now
          refresh_token := tok }

/-! ## Generic database access layer (`src/utils/database_manager.py`)

`insert_many` and `select` are modelled over an abstract store. A store
driver is a function from the statement and its bind values to either rows
or a wrapped `DatabaseError`; the outcome type distinguishes a rejection by
the pre-execution guards (raised before `sqlite3.connect` is ever called)
from a result produced by actually executing against the store. -/

/-- A SQLite bind value (the scalar Python values the repository binds). -/
inductive BindVal where
  | int (n : Int)
  | str (s : String)
deriving DecidableEq, Repr

/-- An element of the `values_list` argument of `insert_many`: either a
Python tuple of bind values, or any non-tuple Python value (for example a
list), which `isinstance(item, tuple)` rejects. -/
inductive PyItem where
  | tuple (vals : List BindVal)
  | nonTuple
deriving DecidableEq, Repr

/-- The `values_list` argument itself: a Python list of items, or any
non-list Python value, which `isinstance(values_list, list)` rejects. -/
inductive PyArg where
  | list (items : List PyItem)
  | nonList
deriving DecidableEq, Repr

/-- A result row, as `sqlite3.Row`: a mapping from column name to value. -/
abbrev SqlRow := List (String × BindVal)

/-- A store driver: executes one statement with bound values against the
SQLite file, returning rows or a wrapped `DatabaseError`. -/
abbrev StoreExec := String → List BindVal → Except DatabaseError (List SqlRow)

instance {ε α : Type} [DecidableEq ε] [DecidableEq α] : DecidableEq (Except ε α) := fun x y =>
  match x, y with
  | .error a, .error b =>
    if h : a = b then isTrue (by rw [h]) else isFalse (by intro hc; cases hc; exact h rfl)
  | .error _, .ok _ => isFalse (by intro hc; cases hc)
  | .ok _, .error _ => isFalse (by intro hc; cases hc)
  | .ok a, .ok b =>
    if h : a = b then isTrue (by rw [h]) else isFalse (by intro hc; cases hc; exact h rfl)

/-- Outcome of `insert_many`: either one of the guards raised before the
store was touched, or `executemany` ran against the store. -/
inductive BatchOutcome where
  | rejected (e : DatabaseError)
  | executed (r : Except DatabaseError Nat)
deriving DecidableEq, Repr

/-- Outcome of `select`: either the statement-kind guard raised before the
store was touched, or the statement ran against the store. -/
inductive SelectOutcome where
  | rejected (e : DatabaseError)
  | executed (r : Except DatabaseError (List SqlRow))
deriving DecidableEq, Repr

/-- Python `str.strip()`: drop leading and trailing whitespace, on the
character list of the string. -/
def pyStrip (s : List Char) : List Char :=
  ((s.dropWhile Char.isWhitespace).reverse.dropWhile Char.isWhitespace).reverse

/-- Python `str.upper()` (on the ASCII SQL keywords involved). -/
def pyUpper (s : List Char) : List Char :=
  s.map Char.toUpper

/-- Python `str.startswith(pre)`: prefix test on character lists. -/
def pyStartsWith : List Char → List Char → Bool
  | _, [] => true
  | [], _ :: _ => false
  | c :: cs, d :: ds => c == d && pyStartsWith cs ds

/-- `query.strip().upper().startswith(verb)`: the statement-kind guard used
by every `DatabaseManager` method. -/
def stmtStartsWith (query verb : String) : Bool :=
  pyStartsWith (pyUpper (pyStrip query.data)) verb.data

/-- The `DatabaseManager` object (database_manager.py lines 12-25).
`__init__` assigns only `self.db_path`; no method of the class ever assigns
`self.connection`, so that attribute slot is empty (`none`) on every
reachable instance. -/
structure DatabaseManager where
  db_path : String
  connection : Option Unit
deriving DecidableEq, Repr

/-- `DatabaseManager.__init__` (lines 15-25): stores the path; the
`connection` attribute is never assigned. -/
def DatabaseManager.init (db_path : String) : DatabaseManager :=
  { db_path := db_path, connection := none }

/-- Number of `?` placeholders in a statement: the arity `executemany`
expects of every bound tuple. -/
def placeholders (query : String) : Nat :=
  (query.toList.filter (fun c => c == '?')).length

/-- `cursor.executemany(query, values_list)` inside `insert_many`
(lines 107-111): SQLite raises `sqlite3.ProgrammingError` when some tuple's
arity differs from the placeholder count (or an item is not a sequence of
binds). `ProgrammingError` is a subclass of `sqlite3.DatabaseError` and is
neither an `IntegrityError` nor an `OperationalError`, so `insert_many`
catches it in its `except sqlite3.DatabaseError` branch (lines 124-125)
and wraps it as `"Database error: ..."`; the driver text is the usual
"Incorrect number of bindings supplied". On success the rowcount equals
the number of tuples. -/
def executemany (query : String) (items : List PyItem) : Except DatabaseError Nat :=
  if items.all (fun i =>
      match i with
      | .tuple vals => vals.length == placeholders query
      | .nonTuple => false) then
    .ok items.length
  else
    .error { msg := "Database error: Incorrect number of bindings supplied" }

/-- `isinstance(item, tuple)` on an element of `values_list`. -/
def PyItem.isTuple : PyItem → Bool
  | .tuple _ => true
  | .nonTuple => false

/-- `insert_many` (database_manager.py lines 84-127): raise unless the
statement starts with INSERT; raise "Values must be a list of tuples"
unless `values_list` is a list whose every element is a tuple; only then
open the connection and run `executemany`. Both guards fire before the
store is touched. -/
def insert_many (self : DatabaseManager) (query : String) (values_list : PyArg) :
    BatchOutcome :=
  if ¬ (stmtStartsWith query "INSERT") then
    .rejected { msg := "Query must be an INSERT statement" }
  else
    match values_list with
    | .nonList => .rejected { msg := "Values must be a list of tuples" }
    | .list items =>
      if items.all PyItem.isTuple then
        .executed (executemany query items)
      else
        .rejected { msg := "Values must be a list of tuples" }

/-- `select` (database_manager.py lines 151-171): raise unless the
statement starts with SELECT (before the store is touched); otherwise run
`_execute` against the store with `values or ()` and return the fetched
rows (an empty row set comes back as the empty list, not an error). -/
def DatabaseManager.select (self : DatabaseManager) (exec : StoreExec)
    (query : String) (values : Option (List BindVal)) : SelectOutcome :=
  if ¬ (stmtStartsWith query "SELECT") then
    .rejected { msg := "Query must be a SELECT statement" }
  else
    .executed (exec query (values.getD []))

/-- A Python `AttributeError`, raised on reading an attribute that was
never assigned. -/
structure AttributeError where
  attr : String
deriving DecidableEq, Repr

/-- `close` (database_manager.py lines 255-260): reads `self.connection`,
which no code path ever assigns, so the read raises `AttributeError`
whenever the attribute slot is empty. -/
def DatabaseManager.close (self : DatabaseManager) : Except AttributeError Unit :=
  match self.connection with
  | none => .error { attr := "connection" }
  | some _ => .ok ()

/-- The leading verb of a SQL string: its first whitespace-delimited word,
uppercased (used to state claims about statement-kind validation). -/
def leadingVerb (query : String) : String :=
  String.mk ((pyUpper (pyStrip query.data)).takeWhile (fun c => !c.isWhitespace))

/-- A store driver over an empty table: every executed statement matches no
rows. -/
def emptyStore : StoreExec := fun _ _ => .ok []

/-! ## Helper lemmas -/

theorem dget_dinsert_self (d : Claims) (k v : String) : dget (dinsert d k v) k = some v := by
  simp [dget, dinsert]

theorem decode_token_some (t : Token) (now : Nat) (p : Claims)
    (h : decode_token t now = some p) : p = t.payload := by
  unfold decode_token at h
  split at h
  · exact (Option.some_inj.mp h).symm
  · cases h

theorem get_user_some_not_failing (db : UsersDB) (u : String) (r : String × AuthHash)
    (h : get_user db u = some r) : db.failing = false := by
  cases hf : db.failing
  · rfl
  · simp [get_user, users_select, hf] at h

theorem get_user_append (xs ys : List UserRow) (u : String) (r : String × AuthHash)
    (h : get_user { users := xs, failing := false } u = some r) :
    get_user { users := xs ++ ys, failing := false } u = some r := by
  unfold get_user users_select at h ⊢
  simp only [if_neg (by simp : ¬ (false = true))] at h ⊢
  cases hf : xs.filter (fun row => row.username == u) with
  | nil => rw [hf] at h; simp at h
  | cons w ws =>
    rw [hf] at h
    rw [List.filter_append, hf]
    simpa using h

theorem verify_refresh_token_wrong_type (t : Token) (now : Nat)
    (h : dget t.payload "type" ≠ some "refresh") :
    ∃ e, verify_refresh_token t now = .error e ∧ e.status_code = 401 := by
  cases hd : decode_token t now with
  | none =>
    refine ⟨{ status_code := 401, detail := "Invalid or expired refresh token" }, ?_, rfl⟩
    simp [verify_refresh_token, hd]
  | some payload =>
    have hp : payload = t.payload := decode_token_some t now payload hd
    have hc : (dget payload "type" != some "refresh") = true := by
      rw [hp]; simpa using h
    refine ⟨{ status_code := 401, detail := "Invalid token type" }, ?_, rfl⟩
    simp [verify_refresh_token, hd, hc]

theorem get_current_user_wrong_type (t : Token) (now : Nat)
    (h : dget t.payload "type" ≠ some "access") :
    ∃ e, get_current_user t now = .error e ∧ e.status_code = 401 := by
  cases hd : decode_token t now with
  | none =>
    refine ⟨{ status_code := 401, detail := "Invalid authentication credentials" }, ?_, rfl⟩
    simp [get_current_user, hd]
  | some payload =>
    have hp : payload = t.payload := decode_token_some t now payload hd
    have hc : (dget payload "type" != some "access") = true := by
      rw [hp]; simpa using h
    refine ⟨{ status_code := 401, detail := "Invalid authentication credentials" }, ?_, rfl⟩
    simp [get_current_user, hd, hc]

theorem verify_refresh_token_ok_payload (t : Token) (now : Nat) (payload : Claims)
    (h : verify_refresh_token t now = .ok payload) :
    payload = t.payload ∧ (dget t.payload "sub").isSome = true := by
  cases hd : decode_token t now with
  | none =>
    rw [verify_refresh_token, hd] at h
    cases h
  | some p =>
    rw [verify_refresh_token, hd] at h
    have hp : p = t.payload := decode_token_some t now p hd
    by_cases c1 : (dget p "type" != some "refresh") = true
    · simp [c1] at h
    · by_cases c2 : (dget p "sub").isNone = true
      · simp [c1, c2] at h
      · simp [c1, c2] at h
        constructor
        · rw [← h, hp]
        · rw [← hp]
          cases hs : dget p "sub"
          · rw [hs] at c2; simp at c2
          · rfl

theorem freeSuffixAux_spec (db : UsersDB) (base : String) :
    ∀ (fuel start k : Nat), freeSuffixAux db base start fuel = some k →
      start ≤ k ∧ get_user db (base ++ toString k) = none ∧
      ∀ j, start ≤ j → j < k → (get_user db (base ++ toString j)).isSome = true := by
  intro fuel
  induction fuel with
  | zero => intro start k h; simp [freeSuffixAux] at h
  | succ n ih =>
    intro start k h
    unfold freeSuffixAux at h
    by_cases hfree : (get_user db (base ++ toString start)).isNone = true
    · rw [if_pos hfree] at h
      have hk : start = k := Option.some_inj.mp h
      subst hk
      refine ⟨le_refl _, Option.isNone_iff_eq_none.mp hfree, ?_⟩
      intro j hj1 hj2
      omega
    · rw [if_neg hfree] at h
      obtain ⟨h1, h2, h3⟩ := ih (start + 1) k h
      refine ⟨by omega, h2, ?_⟩
      intro j hj1 hj2
      by_cases hj : j = start
      · subst hj
        cases hopt : get_user db (base ++ toString j)
        · exact absurd (by simp [hopt]) hfree
        · rfl
      · exact h3 j (by omega) hj2

/-! ## Claim theorems -/

/-- Claim C1: token-kind separation. Any token issued with claim
`type="access"` fails `verify_refresh_token` with a 401 Unauthenticated
error; any token issued with claim `type="refresh"` fails
`get_current_user` with a 401 error; and a token issued through
`create_refresh_token` (which stamps `type="refresh"` itself) likewise
fails `get_current_user`. The `type` claim is tested explicitly on both
verification paths. -/
theorem token_kind_separation (data : Claims) (delta : Option Nat) (now now2 : Nat) :
    (dget data "type" = some "access" →
      ∃ e, verify_refresh_token (create_access_token data delta now) now2 = .error e ∧
        e.status_code = 401)
    ∧ (dget data "type" = some "refresh" →
      ∃ e, get_current_user (create_access_token data delta now) now2 = .error e ∧
        e.status_code = 401)
    ∧ (∃ e, get_current_user (create_refresh_token data delta now) now2 = .error e ∧
        e.status_code = 401) := by
  refine ⟨?_, ?_, ?_⟩
  · intro h
    apply verify_refresh_token_wrong_type
    show dget data "type" ≠ some "refresh"
    rw [h]
    simp
  · intro h
    apply get_current_user_wrong_type
    show dget data "type" ≠ some "access"
    rw [h]
    simp
  · apply get_current_user_wrong_type
    show dget (dinsert data "type" "refresh") "type" ≠ some "access"
    rw [dget_dinsert_self]
    simp

/-- Witness for C1: concrete access and refresh tokens for user `alice`. -/
theorem token_kind_separation_witness :
    (∃ e, verify_refresh_token
        (create_access_token [("sub", "alice"), ("type", "access")] none 0) 5 = .error e ∧
        e.status_code = 401)
    ∧ (∃ e, get_current_user
        (create_access_token [("sub", "alice"), ("type", "refresh")] none 0) 5 = .error e ∧
        e.status_code = 401) :=
  ⟨(token_kind_separation [("sub", "alice"), ("type", "access")] none 0 5).1 rfl,
   (token_kind_separation [("sub", "alice"), ("type", "refresh")] none 0 5).2.1 rfl⟩

/-- Claim C9: whatever claims dictionary is passed to `create_refresh_token`
— including one that already binds `type` (e.g. to `"access"`) — the issued
token decodes to a payload whose `type` claim is `"refresh"`: the
refresh-issuing path stamps the claim itself and the caller cannot override
it. -/
theorem create_refresh_token_sets_type (data : Claims) (delta : Option Nat)
    (now now2 : Nat) (p : Claims)
    (h : decode_token (create_refresh_token data delta now) now2 = some p) :
    dget p "type" = some "refresh" := by
  have hp : p = (create_refresh_token data delta now).payload := decode_token_some _ now2 p h
  rw [hp]
  show dget (dinsert data "type" "refresh") "type" = some "refresh"
  exact dget_dinsert_self data "type" "refresh"

/-- Witness for C9: a caller-supplied dictionary carrying `type="access"`
still yields a decoded `type="refresh"`. -/
theorem create_refresh_token_sets_type_witness :
    dget [("type", "refresh"), ("sub", "alice")] "type" = some "refresh" :=
  create_refresh_token_sets_type [("sub", "alice"), ("type", "access")] none 0 5
    [("type", "refresh"), ("sub", "alice")] rfl

/-- Counterexample to claim C2 as stated: with the storage layer failing
(`DatabaseError` raised inside `manager.select`), a login attempt surfaces
the 401 "Invalid username or password" outcome — the `InvalidCredentials`
outcome, not a generic server error — because `get_user` swallows the
storage failure and reports the user as absent. -/
theorem login_storage_failure_counterexample :
    authenticate_user { users := [], failing := true } "alice" "pw" =
      .error { status_code := 401, detail := "Invalid username or password" }
    ∧ authenticate_user { users := [], failing := true } "alice" "pw" ≠
      .error { status_code := 500, detail := "Internal server error during authentication" } := by
  constructor
  · rfl
  · decide

/-- Claim C2, amended: when the storage layer fails during login, the
failure is absorbed by `get_user` (whose catch-all returns `None`), so both
`authenticate_user` and the login route surface the uniform 401
"Invalid username or password" outcome; store-native error details do not
leak, but the outcome is `InvalidCredentials`, not a generic server
error. -/
theorem login_storage_failure_invalid_credentials (db : UsersDB)
    (u p : String) (now accessMin : Nat) (h : db.failing = true) :
    authenticate_user db u p =
      .error { status_code := 401, detail := "Invalid username or password" }
    ∧ login_route db u p now accessMin =
      .error { status_code := 401, detail := "Invalid username or password" } := by
  have hget : get_user db u = none := by
    simp [get_user, users_select, h]
  constructor
  · simp [authenticate_user, hget]
  · simp [login_route, authenticate_user, hget]

/-- Witness for the amended C2: a concrete failing store. -/
theorem login_storage_failure_invalid_credentials_witness :
    authenticate_user { users := [], failing := true } "bob" "pw2" =
      .error { status_code := 401, detail := "Invalid username or password" }
    ∧ login_route { users := [], failing := true } "bob" "pw2" 0 30 =
      .error { status_code := 401, detail := "Invalid username or password" } :=
  login_storage_failure_invalid_credentials { users := [], failing := true } "bob" "pw2" 0 30 rfl

/-- Claim C6: two-run indistinguishability of login failure. A login with
an unknown username and a login with a known username but wrong password
produce identical observable outcomes: the same 401 error with detail
"Invalid username or password". -/
theorem login_failure_indistinguishable (db : UsersDB) (u1 p1 u2 p2 : String)
    (r : String × AuthHash)
    (h1 : get_user db u1 = none)
    (h2 : get_user db u2 = some r)
    (h3 : pwd_verify p2 r.2 = false) :
    authenticate_user db u1 p1 =
      .error { status_code := 401, detail := "Invalid username or password" }
    ∧ authenticate_user db u2 p2 =
      .error { status_code := 401, detail := "Invalid username or password" }
    ∧ authenticate_user db u1 p1 = authenticate_user db u2 p2 := by
  have ha : authenticate_user db u1 p1 =
      .error { status_code := 401, detail := "Invalid username or password" } := by
    simp [authenticate_user, h1]
  have hb : authenticate_user db u2 p2 =
      .error { status_code := 401, detail := "Invalid username or password" } := by
    simp [authenticate_user, h2, h3]
  exact ⟨ha, hb, by rw [ha, hb]⟩

/-- Witness for C6: unknown `alice` versus known `bob` with a wrong
password against a one-user store. -/
theorem login_failure_indistinguishable_witness :
    authenticate_user
        { users := [{ id := 1, username := "bob", hashed_password := { pw := "right", salt := 0 } }]
          failing := false } "alice" "x" =
      .error { status_code := 401, detail := "Invalid username or password" }
    ∧ authenticate_user
        { users := [{ id := 1, username := "bob", hashed_password := { pw := "right", salt := 0 } }]
          failing := false } "bob" "wrong" =
      .error { status_code := 401, detail := "Invalid username or password" }
    ∧ authenticate_user
        { users := [{ id := 1, username := "bob", hashed_password := { pw := "right", salt := 0 } }]
          failing := false } "alice" "x" =
      authenticate_user
        { users := [{ id := 1, username := "bob", hashed_password := { pw := "right", salt := 0 } }]
          failing := false } "bob" "wrong" :=
  login_failure_indistinguishable
    { users := [{ id := 1, username := "bob", hashed_password := { pw := "right", salt := 0 } }]
      failing := false }
    "alice" "x" "bob" "wrong" ("bob", { pw := "right", salt := 0 }) rfl rfl rfl

/-- Claim C3: exact duplicate registration. If `username` is stored with a
hash that verifies against `password`, a second `create_user` with the same
pair returns `None` and leaves the store unchanged (no insert), and the
register route maps that absence to the 400 "User already exists"
(`AlreadyExists`) outcome. -/
theorem duplicate_registration_already_exists (db : UsersDB) (u p : String)
    (salt now accessMin : Nat) (r : String × AuthHash)
    (h1 : get_user db u = some r)
    (h2 : pwd_verify p r.2 = true) :
    create_user db u p salt = (none, db)
    ∧ register_route db u p salt now accessMin =
      .error { status_code := 400, detail := "User already exists" } := by
  constructor
  · unfold create_user
    rw [h1]
    simp [h2]
  · unfold register_route create_user
    rw [h1]
    simp [h2]

/-- Witness for C3: re-registering `alice` with her stored password. -/
theorem duplicate_registration_already_exists_witness :
    create_user
        { users := [{ id := 1, username := "alice", hashed_password := { pw := "p1", salt := 0 } }]
          failing := false } "alice" "p1" 7 =
      (none,
       { users := [{ id := 1, username := "alice", hashed_password := { pw := "p1", salt := 0 } }]
         failing := false })
    ∧ register_route
        { users := [{ id := 1, username := "alice", hashed_password := { pw := "p1", salt := 0 } }]
          failing := false } "alice" "p1" 7 0 30 =
      .error { status_code := 400, detail := "User already exists" } :=
  duplicate_registration_already_exists
    { users := [{ id := 1, username := "alice", hashed_password := { pw := "p1", salt := 0 } }]
      failing := false }
    "alice" "p1" 7 0 30 ("alice", { pw := "p1", salt := 0 }) rfl rfl

/-- Claim C4: registration under a taken username with a different
password. `create_user` probes `username1`, `username2`, ... in increasing
order (here: `k` is at least 1, the names below suffix `k` are all taken,
and the name at `k` is free), inserts a new record under the first unused
suffixed name carrying a hash of the newly supplied password, and leaves
the original record untouched: looking the original username up afterwards
still yields the original stored credential. -/
theorem register_collision_suffix (db : UsersDB) (u p : String) (salt : Nat)
    (r : String × AuthHash) (k : Nat)
    (h1 : get_user db u = some r)
    (h2 : pwd_verify p r.2 = false)
    (hk : freeSuffixAux db u 1 (db.users.length + 1) = some k) :
    create_user db u p salt =
      (some (db.users.length + 1, u ++ toString k),
       { users := db.users ++
           [{ id := db.users.length + 1, username := u ++ toString k,
              hashed_password := pwd_hash p salt }]
         failing := db.failing })
    ∧ 1 ≤ k
    ∧ get_user db (u ++ toString k) = none
    ∧ (∀ j, 1 ≤ j → j < k → (get_user db (u ++ toString j)).isSome = true)
    ∧ get_user (create_user db u p salt).2 u = some r := by
  have hfail : db.failing = false := get_user_some_not_failing db u r h1
  obtain ⟨hk1, hkfree, hkmin⟩ := freeSuffixAux_spec db u (db.users.length + 1) 1 k hk
  have hins : users_insert db (u ++ toString k) (pwd_hash p salt) =
      .ok (db.users.length + 1,
           { users := db.users ++
               [{ id := db.users.length + 1, username := u ++ toString k,
                  hashed_password := pwd_hash p salt }]
             failing := db.failing }) := by
    simp [users_insert, hfail]
  have hcu : create_user db u p salt =
      (some (db.users.length + 1, u ++ toString k),
       { users := db.users ++
           [{ id := db.users.length + 1, username := u ++ toString k,
              hashed_password := pwd_hash p salt }]
         failing := db.failing }) := by
    unfold create_user
    rw [h1]
    simp only [h2, Bool.false_eq_true, if_false, hk, hins]
  have hdb : db = { users := db.users, failing := false } := by
    cases db with
    | mk users failing =>
      simp only at hfail
      rw [hfail]
  have h1f : get_user { users := db.users, failing := false } u = some r := by
    rw [← hdb]
    exact h1
  refine ⟨hcu, hk1, hkfree, hkmin, ?_⟩
  rw [hcu]
  show get_user
    { users := db.users ++
        [{ id := db.users.length + 1, username := u ++ toString k,
           hashed_password := pwd_hash p salt }]
      failing := db.failing } u = some r
  rw [hfail]
  exact get_user_append db.users _ u r h1f

/-- Witness for C4: `alice` is taken with password `p1`; registering
`alice` with `p2` inserts `alice1` and leaves `alice` intact. -/
theorem register_collision_suffix_witness :
    create_user
        { users := [{ id := 1, username := "alice", hashed_password := { pw := "p1", salt := 0 } }]
          failing := false } "alice" "p2" 3 =
      (some (2, "alice" ++ toString 1),
       { users := [{ id := 1, username := "alice", hashed_password := { pw := "p1", salt := 0 } },
                   { id := 2, username := "alice" ++ toString 1,
                     hashed_password := { pw := "p2", salt := 3 } }]
         failing := false })
    ∧ get_user
        { users := [{ id := 1, username := "alice", hashed_password := { pw := "p1", salt := 0 } }]
          failing := false } ("alice" ++ toString 1) = none
    ∧ get_user
        (create_user
          { users := [{ id := 1, username := "alice", hashed_password := { pw := "p1", salt := 0 } }]
            failing := false } "alice" "p2" 3).2 "alice" =
      some ("alice", { pw := "p1", salt := 0 }) := by
  obtain ⟨a, _, c, _, e⟩ := register_collision_suffix
    { users := [{ id := 1, username := "alice", hashed_password := { pw := "p1", salt := 0 } }]
      failing := false }
    "alice" "p2" 3 ("alice", { pw := "p1", salt := 0 }) 1 rfl rfl rfl
  exact ⟨a, c, e⟩

/-- Claim C5: a refresh request carrying a valid refresh token answers with
a newly issued access token whose `sub` claim equals the `sub` of the
presented refresh token, and echoes back the presented refresh token
itself, unchanged (no rotation). -/
theorem refresh_echoes_token (tok : Token) (now accessMin : Nat) (payload : Claims)
    (h : verify_refresh_token tok now = .ok payload) :
    refresh_route tok now accessMin =
      .ok { access_token :=
              create_access_token [("sub", (dget tok.payload "sub").getD ""), ("type", "access")]
                (some (accessMin * 60)) now
            refresh_token := tok }
    ∧ dget tok.payload "sub" = some ((dget tok.payload "sub").getD "")
    ∧ dget (create_access_token [("sub", (dget tok.payload "sub").getD ""), ("type", "access")]
          (some (accessMin * 60)) now).payload "sub" = dget tok.payload "sub" := by
  obtain ⟨hp, hsub⟩ := verify_refresh_token_ok_payload tok now payload h
  subst hp
  obtain ⟨s, hs⟩ := Option.isSome_iff_exists.mp hsub
  refine ⟨?_, ?_, ?_⟩
  · simp [refresh_route, h]
  · rw [hs]
    rfl
  · rw [hs]
    simp [create_access_token, dget]

/-- Witness for C5: a concrete valid refresh token for `alice`. -/
theorem refresh_echoes_token_witness :
    refresh_route (create_access_token [("sub", "alice"), ("type", "refresh")] none 0) 5 30 =
      .ok { access_token := create_access_token [("sub", "alice"), ("type", "access")] (some 1800) 5
            refresh_token := create_access_token [("sub", "alice"), ("type", "refresh")] none 0 }
    ∧ dget [("sub", "alice"), ("type", "refresh")] "sub" = some "alice" := by
  have h := refresh_echoes_token (create_access_token [("sub", "alice"), ("type", "refresh")] none 0)
    5 30 [("sub", "alice"), ("type", "refresh")] rfl
  exact ⟨h.1, h.2.1⟩

/-- Counterexample to claim C7 as stated: a list whose elements are all
tuples but of differing arities passes both pre-execution guards of
`insert_many` (the outcome is `executed`, not `rejected`): the batch is
executed against the store, where the arity mismatch raises
`sqlite3.ProgrammingError`, wrapped by the `except sqlite3.DatabaseError`
branch as a "Database error: ..." failure. -/
theorem insert_many_mixed_arity_counterexample :
    insert_many (DatabaseManager.init "app.db") "INSERT INTO users (username) VALUES (?)"
        (PyArg.list [PyItem.tuple [BindVal.str "a"], PyItem.tuple [BindVal.str "a", BindVal.str "b"]]) =
      BatchOutcome.executed
        (.error { msg := "Database error: Incorrect number of bindings supplied" }) := by
  rfl

/-- Claim C7, amended: before executing against the store, `insert_many`
rejects exactly those inputs that are not a list or that contain a
non-tuple element, with the error "Values must be a list of tuples"; the
shape (arity) of the tuples is not checked, so any list of tuples — equal
arities or not — passes the guard and `executemany` runs against the
store, where an arity mismatch is wrapped by the
`except sqlite3.DatabaseError` branch as a "Database error: ..."
failure. -/
theorem insert_many_guard_characterisation (mgr : DatabaseManager) (q : String)
    (items : List PyItem)
    (hq : stmtStartsWith q "INSERT" = true) :
    insert_many mgr q .nonList = .rejected { msg := "Values must be a list of tuples" }
    ∧ (items.all PyItem.isTuple = false →
        insert_many mgr q (.list items) = .rejected { msg := "Values must be a list of tuples" })
    ∧ (items.all PyItem.isTuple = true →
        insert_many mgr q (.list items) = .executed (executemany q items)) := by
  refine ⟨?_, ?_, ?_⟩
  · simp [insert_many, hq]
  · intro h
    simp [insert_many, hq, h]
  · intro h
    simp [insert_many, hq, h]

/-- Witness for the amended C7: a non-tuple element is rejected before the
store; a mixed-arity list of tuples is executed against the store. -/
theorem insert_many_guard_characterisation_witness :
    insert_many (DatabaseManager.init "app.db") "INSERT INTO users (username) VALUES (?)"
        (PyArg.list [PyItem.tuple [BindVal.int 1], PyItem.nonTuple]) =
      .rejected { msg := "Values must be a list of tuples" }
    ∧ insert_many (DatabaseManager.init "app.db") "INSERT INTO users (username) VALUES (?)"
        (PyArg.list [PyItem.tuple [BindVal.int 1], PyItem.tuple [BindVal.int 1, BindVal.int 2]]) =
      .executed (executemany "INSERT INTO users (username) VALUES (?)"
        [PyItem.tuple [BindVal.int 1], PyItem.tuple [BindVal.int 1, BindVal.int 2]]) :=
  ⟨((insert_many_guard_characterisation (DatabaseManager.init "app.db")
      "INSERT INTO users (username) VALUES (?)"
      [PyItem.tuple [BindVal.int 1], PyItem.nonTuple] rfl).2.1) rfl,
   ((insert_many_guard_characterisation (DatabaseManager.init "app.db")
      "INSERT INTO users (username) VALUES (?)"
      [PyItem.tuple [BindVal.int 1], PyItem.tuple [BindVal.int 1, BindVal.int 2]] rfl).2.2) rfl⟩

/-- Counterexample to claim C8 as stated: `"SELECTED 1"` has leading verb
`SELECTED`, not `SELECT`, yet `select` does not fail before the store — the
prefix guard accepts it and the statement is executed against the store. -/
theorem select_leading_verb_counterexample :
    leadingVerb "SELECTED 1" ≠ "SELECT"
    ∧ DatabaseManager.select (DatabaseManager.init "app.db") emptyStore "SELECTED 1" none =
      .executed (.ok []) := by
  constructor
  · decide
  · rfl

/-- Claim C8, amended: `select` fails with the statement-kind error before
ever executing against the store exactly when the trimmed, uppercased query
text does not start with `"SELECT"` — in particular for every UPDATE
statement — while a query passing that prefix guard (even one whose leading
verb merely extends the word, such as `"SELECTED 1"`) is executed; and an
executed SELECT matching no rows returns the empty sequence, not an
error. -/
theorem select_guard_and_empty_result (mgr : DatabaseManager) (exec : StoreExec)
    (q : String) (values : Option (List BindVal)) :
    (stmtStartsWith q "SELECT" = false →
      DatabaseManager.select mgr exec q values =
        .rejected { msg := "Query must be a SELECT statement" })
    ∧ (stmtStartsWith q "SELECT" = true →
      exec q (values.getD []) = .ok [] →
      DatabaseManager.select mgr exec q values = .executed (.ok [])) := by
  constructor
  · intro h
    simp [DatabaseManager.select, h]
  · intro h hrows
    simp [DatabaseManager.select, h, hrows]

/-- Witness for the amended C8: an UPDATE statement is rejected before the
store; a SELECT over an empty table yields the empty row list. -/
theorem select_guard_and_empty_result_witness :
    DatabaseManager.select (DatabaseManager.init "app.db") emptyStore
        "UPDATE users SET username = 1" none =
      .rejected { msg := "Query must be a SELECT statement" }
    ∧ DatabaseManager.select (DatabaseManager.init "app.db") emptyStore
        "SELECT username FROM users" none =
      .executed (.ok []) :=
  ⟨(select_guard_and_empty_result (DatabaseManager.init "app.db") emptyStore
      "UPDATE users SET username = 1" none).1 rfl,
   (select_guard_and_empty_result (DatabaseManager.init "app.db") emptyStore
      "SELECT username FROM users" none).2 rfl rfl⟩

/-- Claim C10: `close` always fails. The initializer assigns only
`db_path`, never a `connection` attribute, and no method of the class ever
assigns it, so the attribute slot is empty on every reachable instance and
`close` unconditionally raises `AttributeError`. -/
theorem close_always_fails :
    (∀ p, DatabaseManager.close (DatabaseManager.init p) = .error { attr := "connection" })
    ∧ (∀ m : DatabaseManager, m.connection = none →
        DatabaseManager.close m = .error { attr := "connection" }) := by
  constructor
  · intro p
    rfl
  · intro m h
    simp [DatabaseManager.close, h]

/-- Witness for C10: closing a freshly initialized manager fails. -/
theorem close_always_fails_witness :
    DatabaseManager.close (DatabaseManager.init "nvda.db") = .error { attr := "connection" }
    ∧ DatabaseManager.close { db_path := "nvda.db", connection := none } =
      .error { attr := "connection" } :=
  ⟨close_always_fails.1 "nvda.db",
   close_always_fails.2 { db_path := "nvda.db", connection := none } rfl⟩
